import Mathlib

/-!
Shallow embedding of `components/builder-protocol/src/jobsrv.rs` (habitat
builder protocol, jobsrv module): the three state enums with their
`Display`, `FromStr` and `Serialize` implementations, the `Routable`
routing keys, the `Job` / `JobLog` serializations, the `strip_ansi` log
sanitizer, and the record conversions between `JobSpec`, `Job` and the
`JobGraphPackage` family.

Machine integers (`u64`) are modelled as `Nat`: no arithmetic is performed
on them in this module (they are only copied, wrapped or rendered in
decimal), so overflow never arises.
-/

namespace Jobsrv

/-- The `JobState` protobuf enum: exactly the 9 variants matched by
`Display for JobState` in the source. -/
inductive JobState where
  | Pending
  | Processing
  | Complete
  | Rejected
  | Failed
  | Dispatched
  | CancelPending
  | CancelProcessing
  | CancelComplete
deriving DecidableEq, Repr

/-- The `JobGroupState` protobuf enum: the 6 variants matched by
`Display for JobGroupState` in the source. -/
inductive JobGroupState where
  | GroupPending
  | GroupDispatching
  | GroupComplete
  | GroupFailed
  | GroupQueued
  | GroupCanceled
deriving DecidableEq, Repr

/-- The `JobGroupProjectState` protobuf enum: the 6 variants matched by
`Display for JobGroupProjectState` in the source. -/
inductive JobGroupProjectState where
  | NotStarted
  | InProgress
  | Success
  | Failure
  | Skipped
  | Canceled
deriving DecidableEq, Repr

/-- The `error::ProtocolError` variants produced by the three `from_str`
implementations in this module (the error enum itself lives in `error.rs`,
outside the embedded file; each variant carries the offending raw string,
as seen at every construction site in the source). -/
inductive ProtocolError where
  | BadJobState (s : String)
  | BadJobGroupState (s : String)
  | BadJobGroupProjectState (s : String)
deriving DecidableEq, Repr

/-- Modelled from the spec: numeric discriminants of the protobuf-generated
`JobState` enum (`*self as u64`); the generated code is not under `src/`,
so the integer-to-token table of spec section 3 fixes the assignment:
`0 Pending, 1 Processing, 2 Complete, 3 Rejected, 4 Failed, 5 Dispatched,
6 CancelPending, 7 CancelProcessing, 8 CancelComplete`. -/
def JobState.toNum : JobState → Nat
  | .Pending => 0
  | .Processing => 1
  | .Complete => 2
  | .Rejected => 3
  | .Failed => 4
  | .Dispatched => 5
  | .CancelPending => 6
  | .CancelProcessing => 7
  | .CancelComplete => 8

/-- Modelled from the spec: numeric discriminants of the protobuf-generated
`JobGroupState` enum, per spec section 3:
`0 Pending, 1 Dispatching, 2 Complete, 3 Failed, 4 Queued, 5 Canceled`
(note the Pending/Dispatching numeric order). -/
def JobGroupState.toNum : JobGroupState → Nat
  | .GroupPending => 0
  | .GroupDispatching => 1
  | .GroupComplete => 2
  | .GroupFailed => 3
  | .GroupQueued => 4
  | .GroupCanceled => 5

/-- Modelled from the spec: numeric discriminants of the protobuf-generated
`JobGroupProjectState` enum, per spec section 3:
`0 NotStarted, 1 InProgress, 2 Success, 3 Failure, 4 Skipped, 5 Canceled`. -/
def JobGroupProjectState.toNum : JobGroupProjectState → Nat
  | .NotStarted => 0
  | .InProgress => 1
  | .Success => 2
  | .Failure => 3
  | .Skipped => 4
  | .Canceled => 5

/-- Embeds `fmt::Display for JobState`: the variant-matched token table. -/
def JobState.display : JobState → String
  | .Dispatched => "Dispatched"
  | .Pending => "Pending"
  | .Processing => "Processing"
  | .Complete => "Complete"
  | .Rejected => "Rejected"
  | .Failed => "Failed"
  | .CancelPending => "CancelPending"
  | .CancelProcessing => "CancelProcessing"
  | .CancelComplete => "CancelComplete"

/-- Embeds `fmt::Display for JobGroupState`: the variant-matched token table. -/
def JobGroupState.display : JobGroupState → String
  | .GroupDispatching => "Dispatching"
  | .GroupPending => "Pending"
  | .GroupComplete => "Complete"
  | .GroupFailed => "Failed"
  | .GroupQueued => "Queued"
  | .GroupCanceled => "Canceled"

/-- Embeds `fmt::Display for JobGroupProjectState`: the variant-matched token table. -/
def JobGroupProjectState.display : JobGroupProjectState → String
  | .NotStarted => "NotStarted"
  | .InProgress => "InProgress"
  | .Success => "Success"
  | .Failure => "Failure"
  | .Skipped => "Skipped"
  | .Canceled => "Canceled"

/-- Embeds `value.to_lowercase()` as used by the three `from_str` implementations,
embedded as a character-wise lowercase map over the string's characters
(structural, so it evaluates on concrete inputs; the canonical tokens are
all ASCII). -/
def lowerStr (s : String) : String := String.mk (s.data.map Char.toLower)

/-- Embeds `FromStr for JobState`: lowercase the input and compare it against the
nine lowercase tokens in source order; otherwise the typed error carrying
the original (un-lowercased) input. -/
def JobState.from_str (value : String) : Except ProtocolError JobState :=
  let v := lowerStr value
  if v = "pending" then .ok .Pending
  else if v = "processing" then .ok .Processing
  else if v = "complete" then .ok .Complete
  else if v = "rejected" then .ok .Rejected
  else if v = "failed" then .ok .Failed
  else if v = "dispatched" then .ok .Dispatched
  else if v = "cancelpending" then .ok .CancelPending
  else if v = "cancelprocessing" then .ok .CancelProcessing
  else if v = "cancelcomplete" then .ok .CancelComplete
  else .error (.BadJobState value)

/-- Embeds `FromStr for JobGroupState`. -/
def JobGroupState.from_str (value : String) : Except ProtocolError JobGroupState :=
  let v := lowerStr value
  if v = "dispatching" then .ok .GroupDispatching
  else if v = "pending" then .ok .GroupPending
  else if v = "complete" then .ok .GroupComplete
  else if v = "failed" then .ok .GroupFailed
  else if v = "queued" then .ok .GroupQueued
  else if v = "canceled" then .ok .GroupCanceled
  else .error (.BadJobGroupState value)

/-- Embeds `FromStr for JobGroupProjectState`. -/
def JobGroupProjectState.from_str (value : String) :
    Except ProtocolError JobGroupProjectState :=
  let v := lowerStr value
  if v = "notstarted" then .ok .NotStarted
  else if v = "inprogress" then .ok .InProgress
  else if v = "success" then .ok .Success
  else if v = "failure" then .ok .Failure
  else if v = "skipped" then .ok .Skipped
  else if v = "canceled" then .ok .Canceled
  else .error (.BadJobGroupProjectState value)

/-- Embeds `Serialize for JobState`: a numeric match on `*self as u64`; the
catch-all arm panics (`none` here). -/
def serializeJobStateNum (n : Nat) : Option String :=
  if n = 0 then some "Pending"
  else if n = 1 then some "Processing"
  else if n = 2 then some "Complete"
  else if n = 3 then some "Rejected"
  else if n = 4 then some "Failed"
  else if n = 5 then some "Dispatched"
  else if n = 6 then some "CancelPending"
  else if n = 7 then some "CancelProcessing"
  else if n = 8 then some "CancelComplete"
  else none

/-- Embeds `Serialize for JobGroupState`: numeric match, panic (`none`) otherwise. -/
def serializeJobGroupStateNum (n : Nat) : Option String :=
  if n = 0 then some "Pending"
  else if n = 1 then some "Dispatching"
  else if n = 2 then some "Complete"
  else if n = 3 then some "Failed"
  else if n = 4 then some "Queued"
  else if n = 5 then some "Canceled"
  else none

/-- Embeds `Serialize for JobGroupProjectState`: numeric match, panic (`none`)
otherwise. -/
def serializeJobGroupProjectStateNum (n : Nat) : Option String :=
  if n = 0 then some "NotStarted"
  else if n = 1 then some "InProgress"
  else if n = 2 then some "Success"
  else if n = 3 then some "Failure"
  else if n = 4 then some "Skipped"
  else if n = 5 then some "Canceled"
  else none

/-- Serialization of a `JobState` value: the numeric match applied to the
value's discriminant. -/
def JobState.serializeStr (s : JobState) : Option String :=
  serializeJobStateNum s.toNum

/-- Serialization of a `JobGroupState` value. -/
def JobGroupState.serializeStr (s : JobGroupState) : Option String :=
  serializeJobGroupStateNum s.toNum

/-- Serialization of a `JobGroupProjectState` value. -/
def JobGroupProjectState.serializeStr (s : JobGroupProjectState) : Option String :=
  serializeJobGroupProjectStateNum s.toNum

/-- The nine lowercase `JobState` tokens recognized by `from_str`. -/
def jobStateTokens : List String :=
  ["pending", "processing", "complete", "rejected", "failed", "dispatched",
   "cancelpending", "cancelprocessing", "cancelcomplete"]

/-- The six lowercase `JobGroupState` tokens recognized by `from_str`. -/
def jobGroupStateTokens : List String :=
  ["dispatching", "pending", "complete", "failed", "queued", "canceled"]

/-- The six lowercase `JobGroupProjectState` tokens recognized by `from_str`. -/
def jobGroupProjectStateTokens : List String :=
  ["notstarted", "inprogress", "success", "failure", "skipped", "canceled"]

/-- Modelled from the spec: the opaque shard id newtype `InstaId(u64)` of
the sharding module (not under `src/`): routing keys for numeric ids are
wrapped in it unchanged. -/
structure InstaId where
  id : Nat
deriving DecidableEq, Repr

/-- The project reference carried by a `Job` / `JobSpec` (generated
protobuf message `originsrv::OriginProject`, outside the embedded file):
only the two accessors used by this module are modelled. -/
structure OriginProject where
  origin_name : String
  package_name : String
deriving DecidableEq, Repr

/-- Modelled from the spec: the structured package identifier
`originsrv::OriginPackageIdent` (origin/name/version/release), whose
`Display` is the canonical identifier formatter consumed by this module. -/
structure OriginPackageIdent where
  origin : String
  name : String
  version : String
  release : String
deriving DecidableEq, Repr

/-- Modelled from the spec: the canonical package-identifier formatter
(the `Display` rendering of a structured ident): the fully-qualified
`origin/name/version/release` form. -/
def OriginPackageIdent.fmt (i : OriginPackageIdent) : String :=
  i.origin ++ "/" ++ i.name ++ "/" ++ i.version ++ "/" ++ i.release

/-- The `Job` protobuf message: the fields read or written by this module.
Optional protobuf fields (`has_x`/`get_x` pairs) are `Option`s; `u64`
fields are `Nat`; timestamps are their string forms. -/
structure Job where
  id : Nat
  owner_id : Nat
  state : JobState
  project : OriginProject
  channel : Option String
  package_ident : Option OriginPackageIdent
  build_started_at : Option String
  build_finished_at : Option String
  error : Option String
  created_at : String
deriving DecidableEq, Repr

/-- Embeds `Job::new()`: the generated protobuf default value (numerics zero,
strings empty, enum fields their 0 value, optional fields unset). -/
def Job.new : Job :=
  { id := 0, owner_id := 0, state := .Pending, project := ⟨"", ""⟩,
    channel := none, package_ident := none, build_started_at := none,
    build_finished_at := none, error := none, created_at := "" }

/-- Embeds `impl Default for JobState` in the source: `Pending`. -/
def JobState.defaultState : JobState := .Pending

/-- The `JobSpec` protobuf message: the fields read by this module. -/
structure JobSpec where
  owner_id : Nat
  project : OriginProject
  channel : Option String
deriving DecidableEq, Repr

/-- Embeds `impl Into<Job> for JobSpec`: start from `Job::new()`, copy the owner
id, set the default state, move the project across, and copy the channel
only when the spec has one set. -/
def JobSpec.intoJob (s : JobSpec) : Job :=
  let job := { Job.new with
               owner_id := s.owner_id
               state := JobState.defaultState
               project := s.project }
  match s.channel with
  | some c => { job with channel := some c }
  | none => job

/-- The `JobGet` request message. -/
structure JobGet where
  id : Nat
deriving DecidableEq, Repr

/-- The `JobLogGet` request message (id plus the start offset; only `id`
is read by this module's routing). -/
structure JobLogGet where
  id : Nat
  start : Nat
deriving DecidableEq, Repr

/-- The `ProjectJobsGet` request message. -/
structure ProjectJobsGet where
  name : String
  start : Nat
  stop : Nat
deriving DecidableEq, Repr

/-- The `JobGroupSpec` request message (origin and package are the fields
read by this module's routing). -/
structure JobGroupSpec where
  origin : String
  package : String
deriving DecidableEq, Repr

/-- The `JobGroupGet` request message. -/
structure JobGroupGet where
  group_id : Nat
deriving DecidableEq, Repr

/-- The `JobGroupAbort` request message. -/
structure JobGroupAbort where
  group_id : Nat
deriving DecidableEq, Repr

/-- The `JobGroupCancel` request message. -/
structure JobGroupCancel where
  group_id : Nat
deriving DecidableEq, Repr

/-- The `JobGroupOriginGet` request message. -/
structure JobGroupOriginGet where
  origin : String
deriving DecidableEq, Repr

/-- The `JobGraphPackageStatsGet` request message. -/
structure JobGraphPackageStatsGet where
  origin : String
deriving DecidableEq, Repr

/-- The `JobGraphPackageReverseDependenciesGet` request message. -/
structure JobGraphPackageReverseDependenciesGet where
  origin : String
  name : String
deriving DecidableEq, Repr

/-- The canonical graph node `JobGraphPackage`: ident, target and deps
already rendered as strings. -/
structure JobGraphPackage where
  ident : String
  target : String
  deps : List String
deriving DecidableEq, Repr

/-- The persistence-bound `JobGraphPackageCreate` message: same string
field set as `JobGraphPackage`. -/
structure JobGraphPackageCreate where
  ident : String
  target : String
  deps : List String
deriving DecidableEq, Repr

/-- The raw `JobGraphPackagePreCreate` input message (string fields, as
read by `get_ident`/`get_target`/`get_deps` in the source). -/
structure JobGraphPackagePreCreate where
  ident : String
  target : String
  deps : List String
deriving DecidableEq, Repr

/-- The `OriginPackage` record (generated protobuf message from
`originsrv`, outside the embedded file): the typed ident, target and
dependency idents read by `From<OriginPackage> for JobGraphPackage`. -/
structure OriginPackage where
  ident : OriginPackageIdent
  target : String
  deps : List OriginPackageIdent
deriving DecidableEq, Repr

/-- Embeds `impl From<OriginPackage> for JobGraphPackage`: ident and each dep are
rendered through the canonical identifier formatter; target through its
string form (already a string here). -/
def OriginPackage.toJobGraphPackage (p : OriginPackage) : JobGraphPackage :=
  { ident := p.ident.fmt, target := p.target,
    deps := p.deps.map OriginPackageIdent.fmt }

/-- Embeds `impl From<JobGraphPackage> for JobGraphPackageCreate`: each field is
re-rendered from the source value (`format!` / `to_string` on a string is
the identity, hence the identity maps). -/
def JobGraphPackage.toCreate (p : JobGraphPackage) : JobGraphPackageCreate :=
  { ident := p.ident, target := p.target,
    deps := p.deps.map (fun d => d) }

/-- Embeds `impl Into<JobGraphPackage> for JobGraphPackagePreCreate`: same
re-rendering discipline over the pre-create shape's string fields. -/
def JobGraphPackagePreCreate.intoJobGraphPackage
    (p : JobGraphPackagePreCreate) : JobGraphPackage :=
  { ident := p.ident, target := p.target,
    deps := p.deps.map (fun d => d) }

/-- Embeds `impl Routable for JobSpec`: key is the owner id. -/
def JobSpec.route_key (m : JobSpec) : Option InstaId := some ⟨m.owner_id⟩

/-- Embeds `impl Routable for JobLogGet`: key is the job id. -/
def JobLogGet.route_key (m : JobLogGet) : Option InstaId := some ⟨m.id⟩

/-- Embeds `impl Routable for JobGet`: key is the job id. -/
def JobGet.route_key (m : JobGet) : Option InstaId := some ⟨m.id⟩

/-- Embeds `impl Routable for Job`: key is the job id. -/
def Job.route_key (m : Job) : Option InstaId := some ⟨m.id⟩

/-- Embeds `impl Routable for ProjectJobsGet`: key is the project name. -/
def ProjectJobsGet.route_key (m : ProjectJobsGet) : Option String := some m.name

/-- Embeds `impl Routable for JobGroupSpec`: key is `format!("{}/{}", origin, package)`. -/
def JobGroupSpec.route_key (m : JobGroupSpec) : Option String :=
  some (m.origin ++ "/" ++ m.package)

/-- Embeds `impl Routable for JobGroupGet`: key is the group id in decimal. -/
def JobGroupGet.route_key (m : JobGroupGet) : Option String :=
  some (Nat.repr m.group_id)

/-- Embeds `impl Routable for JobGroupAbort`: key is the group id in decimal. -/
def JobGroupAbort.route_key (m : JobGroupAbort) : Option String :=
  some (Nat.repr m.group_id)

/-- Embeds `impl Routable for JobGroupCancel`: key is the group id in decimal. -/
def JobGroupCancel.route_key (m : JobGroupCancel) : Option String :=
  some (Nat.repr m.group_id)

/-- Embeds `impl Routable for JobGraphPackageCreate`: key is the ident string. -/
def JobGraphPackageCreate.route_key (m : JobGraphPackageCreate) : Option String :=
  some m.ident

/-- Embeds `impl Routable for JobGraphPackagePreCreate`: key is the ident string. -/
def JobGraphPackagePreCreate.route_key (m : JobGraphPackagePreCreate) : Option String :=
  some m.ident

/-- Embeds `impl Routable for JobGroupOriginGet`: key is the origin string. -/
def JobGroupOriginGet.route_key (m : JobGroupOriginGet) : Option String :=
  some m.origin

/-- Embeds `impl Routable for JobGraphPackageStatsGet`: key is the origin string. -/
def JobGraphPackageStatsGet.route_key (m : JobGraphPackageStatsGet) : Option String :=
  some m.origin

/-- Embeds `impl Routable for JobGraphPackageReverseDependenciesGet`: key is
`format!("{}/{}", origin, name)`. -/
def JobGraphPackageReverseDependenciesGet.route_key
    (m : JobGraphPackageReverseDependenciesGet) : Option String :=
  some (m.origin ++ "/" ++ m.name)

/-- A serialized field value in the JSON-like projection: the serializer
distinguishes string-rendered values from pass-through values. -/
inductive SValue where
  | str (s : String)
  | nat (n : Nat)
  | bool (b : Bool)
deriving DecidableEq, Repr

/-- One optional serialized field: emitted only when the value is set. -/
def optField (name : String) (v : Option String) : List (String × SValue) :=
  match v with
  | some s => [(name, SValue.str s)]
  | none => []

/-- Embeds `impl Serialize for Job`: the ordered field list of the projection,
following the source order exactly: `id` rendered as a decimal string,
`created_at`, `origin`/`name` taken from the project reference,
`version`/`release` only when a package identifier is set, the two build
timestamps only when set, the state token (via `Serialize for JobState`;
`none` would mean its panic arm), then `error` and `channel` when set. -/
def Job.serializeFields (j : Job) : Option (List (String × SValue)) :=
  match j.state.serializeStr with
  | none => none
  | some stateTok =>
    some ([("id", SValue.str (Nat.repr j.id)),
           ("created_at", SValue.str j.created_at),
           ("origin", SValue.str j.project.origin_name),
           ("name", SValue.str j.project.package_name)]
      ++ (match j.package_ident with
          | some i => [("version", SValue.str i.version),
                       ("release", SValue.str i.release)]
          | none => [])
      ++ optField "build_started_at" j.build_started_at
      ++ optField "build_finished_at" j.build_finished_at
      ++ [("state", SValue.str stateTok)]
      ++ optField "error" j.error
      ++ optField "channel" j.channel)


/-- The two escape introducers of the sanitizer regex
`[\x1b\x9b][[()#;?]*(?:[0-9]{1,4}(?:;[0-9]{0,4})*)?[0-9A-PRZcf-nqry=><]`:
`ESC` (0x1b) and the 8-bit CSI (0x9b). -/
def isIntroducer (c : Char) : Bool := c = '\x1b' || c = '\x9b'

/-- The parameter-introducer class `[[()#;?]*` of the regex: the characters
`[`, `(`, `)`, `#`, `;`, `?`. -/
def isIntroChar (c : Char) : Bool :=
  c = '[' || c = '(' || c = ')' || c = '#' || c = ';' || c = '?'

/-- A decimal digit (the regex's parameter digits `[0-9]`). -/
def isParamDigit (c : Char) : Bool := '0' ≤ c && c ≤ '9'

/-- The final-byte class `[0-9A-PRZcf-nqry=><]` of the regex. -/
def isFinalByte (c : Char) : Bool :=
  ('0' ≤ c && c ≤ '9') || ('A' ≤ c && c ≤ 'P') || c = 'R' || c = 'Z' || c = 'c'
    || ('f' ≤ c && c ≤ 'n') || c = 'q' || c = 'r' || c = 'y'
    || c = '=' || c = '>' || c = '<'

/-- Length of the longest prefix whose characters all satisfy `p`. -/
def countLeading (p : Char → Bool) : List Char → Nat
  | [] => 0
  | c :: rest => if p c then countLeading p rest + 1 else 0

/-- Match exactly one final byte at the head of the input. -/
def firstFinal : List Char → Option Nat
  | [] => none
  | c :: _ => if isFinalByte c then some 1 else none

/-- Leftmost-first matching of the regex tail `(?:;[0-9]{0,4})*[FINAL]`
(the engine's backtracking preference order): prefer another `;`-group
over stopping, and within a group prefer the longest digit run (four down
to zero), then finish with one final byte. Fuel-structured so it evaluates
by kernel reduction; every recursive call consumes at least the leading
semicolon, so fuel `length + 1` can never be exhausted. -/
def tryRepsF : Nat → List Char → Option Nat
  | 0, _ => none
  | fuel + 1, cs =>
    (match cs with
     | ';' :: rest =>
       let avail := countLeading isParamDigit rest
       let cand := fun (e : Nat) =>
         if e ≤ avail then
           (tryRepsF fuel (rest.drop e)).map (fun k => k + (e + 1))
         else none
       ((((cand 4).orElse (fun _ => cand 3)).orElse (fun _ => cand 2)).orElse
         (fun _ => cand 1)).orElse (fun _ => cand 0)
     | _ => none).orElse (fun _ => firstFinal cs)

/-- Leftmost-first matching of `(?:[0-9]{1,4}(?:;[0-9]{0,4})*)?[FINAL]`:
prefer taking the optional digit group (longest digit run first, four down
to one) followed by the `;`-groups and a final byte; if no digit prefix
yields a match, fall back to a bare final byte. -/
def tryParamsFinal (cs1 : List Char) : Option Nat :=
  let avail := countLeading isParamDigit cs1
  let cand := fun (d : Nat) =>
    if d ≤ avail then
      (tryRepsF (cs1.length + 1) (cs1.drop d)).map (fun k => k + d)
    else none
  ((((cand 4).orElse (fun _ => cand 3)).orElse (fun _ => cand 2)).orElse
    (fun _ => cand 1)).orElse (fun _ => firstFinal cs1)

/-- Match length of the regex remainder after an introducer character: the
greedy run of parameter-introducer characters (safe to take maximally,
since that class is disjoint from the digit and final-byte classes), then
the optional digit parameters and exactly one final byte; `none` when the
control-sequence shape does not match here. -/
def matchTail (cs : List Char) : Option Nat :=
  let n := countLeading isIntroChar cs
  (tryParamsFinal (cs.drop n)).map (fun k => k + n)

/-- One `RE.replace_all(line, "")` pass, fuel-structured (each step
consumes at least one character, so fuel `length` never runs out): at each
position, if the character is an escape introducer and the regex tail
matches, delete the whole leftmost match and continue scanning after it;
otherwise keep the character. -/
def stripFuel : Nat → List Char → List Char
  | 0, cs => cs
  | _ + 1, [] => []
  | fuel + 1, c :: rest =>
    if isIntroducer c then
      match matchTail rest with
      | some k => stripFuel fuel (rest.drop k)
      | none => c :: stripFuel fuel rest
    else c :: stripFuel fuel rest

/-- Embeds `RE.replace_all(line, "")` for the sanitizer regex, on one line. -/
def stripLine (cs : List Char) : List Char := stripFuel cs.length cs

/-- String form of `stripLine`. -/
def stripLineS (s : String) : String := String.mk (stripLine s.data)

/-- The `JobLog` protobuf message: the fields used by this module. -/
structure JobLog where
  start : Nat
  stop : Nat
  content : List String
  is_complete : Bool
deriving DecidableEq, Repr

/-- Embeds `JobLog::strip_ansi`: rebuild the content sequence by stripping each
line in order. -/
def JobLog.strip_ansi (log : JobLog) : JobLog :=
  { log with content := log.content.map stripLineS }

/-- Whether a match of the control-sequence shape starts at offset `i` of
the line. -/
def hasMatchAt (cs : List Char) (i : Nat) : Bool :=
  match cs.drop i with
  | [] => false
  | c :: rest => isIntroducer c && (matchTail rest).isSome

/-- No position of the line starts a control-sequence match. -/
def noMatchLine : List Char → Bool
  | [] => true
  | c :: rest => (!(isIntroducer c && (matchTail rest).isSome)) && noMatchLine rest


/-- Helper for C1: `JobState.from_str` succeeds on any string whose
lowercase form agrees with the lowercase of the rendered token. -/
theorem jobState_from_str_ci (str : String) (s : JobState)
    (h : lowerStr str = lowerStr s.display) : JobState.from_str str = .ok s := by
  cases s <;> simp_all +decide [JobState.from_str, JobState.display]

/-- Helper for C1, `JobGroupState` family. -/
theorem jobGroupState_from_str_ci (str : String) (g : JobGroupState)
    (h : lowerStr str = lowerStr g.display) : JobGroupState.from_str str = .ok g := by
  cases g <;> simp_all +decide [JobGroupState.from_str, JobGroupState.display]

/-- Helper for C1, `JobGroupProjectState` family. -/
theorem jobGroupProjectState_from_str_ci (str : String) (p : JobGroupProjectState)
    (h : lowerStr str = lowerStr p.display) :
    JobGroupProjectState.from_str str = .ok p := by
  cases p <;> simp_all +decide [JobGroupProjectState.from_str, JobGroupProjectState.display]

/-- C1: for all values of the three state enums, `from_str` of the
`Display`-rendered token returns `Ok` of the original value, and `from_str`
is case-insensitive: any string whose lowercase form equals the lowercase
of the canonical token parses to that same value. -/
theorem state_token_roundtrip_case_insensitive :
    (∀ (str : String) (s : JobState),
        lowerStr str = lowerStr s.display → JobState.from_str str = .ok s)
    ∧ (∀ (str : String) (g : JobGroupState),
        lowerStr str = lowerStr g.display → JobGroupState.from_str str = .ok g)
    ∧ (∀ (str : String) (p : JobGroupProjectState),
        lowerStr str = lowerStr p.display → JobGroupProjectState.from_str str = .ok p)
    ∧ (∀ s : JobState, JobState.from_str s.display = .ok s)
    ∧ (∀ g : JobGroupState, JobGroupState.from_str g.display = .ok g)
    ∧ (∀ p : JobGroupProjectState, JobGroupProjectState.from_str p.display = .ok p) := by
  refine ⟨jobState_from_str_ci, jobGroupState_from_str_ci, jobGroupProjectState_from_str_ci,
    fun s => jobState_from_str_ci _ s rfl,
    fun g => jobGroupState_from_str_ci _ g rfl,
    fun p => jobGroupProjectState_from_str_ci _ p rfl⟩

/-- Witness for C1 at concrete inputs: uppercase, canonical, and mixed-case
spellings all parse. -/
theorem state_token_roundtrip_case_insensitive_witness :
    JobState.from_str "PENDING" = .ok .Pending
    ∧ JobGroupState.from_str "Dispatching" = .ok .GroupDispatching
    ∧ JobGroupProjectState.from_str "nOtStArTeD" = .ok .NotStarted :=
  ⟨state_token_roundtrip_case_insensitive.1 "PENDING" .Pending (by decide),
   state_token_roundtrip_case_insensitive.2.1 "Dispatching" .GroupDispatching (by decide),
   state_token_roundtrip_case_insensitive.2.2.1 "nOtStArTeD" .NotStarted (by decide)⟩

/-- C6: for each enum family, `from_str` on a string matching no canonical
token returns the typed bad-state error of that family carrying the
original input string. -/
theorem from_str_unknown_token_typed_error :
    (∀ str : String, lowerStr str ∉ jobStateTokens →
        JobState.from_str str = .error (.BadJobState str))
    ∧ (∀ str : String, lowerStr str ∉ jobGroupStateTokens →
        JobGroupState.from_str str = .error (.BadJobGroupState str))
    ∧ (∀ str : String, lowerStr str ∉ jobGroupProjectStateTokens →
        JobGroupProjectState.from_str str = .error (.BadJobGroupProjectState str)) := by
  refine ⟨?_, ?_, ?_⟩ <;> intro str h
  · simp only [jobStateTokens, List.mem_cons, List.not_mem_nil, or_false, not_or] at h
    obtain ⟨h1, h2, h3, h4, h5, h6, h7, h8, h9⟩ := h
    simp [JobState.from_str, h1, h2, h3, h4, h5, h6, h7, h8, h9]
  · simp only [jobGroupStateTokens, List.mem_cons, List.not_mem_nil, or_false, not_or] at h
    obtain ⟨h1, h2, h3, h4, h5, h6⟩ := h
    simp [JobGroupState.from_str, h1, h2, h3, h4, h5, h6]
  · simp only [jobGroupProjectStateTokens, List.mem_cons, List.not_mem_nil, or_false,
      not_or] at h
    obtain ⟨h1, h2, h3, h4, h5, h6⟩ := h
    simp [JobGroupProjectState.from_str, h1, h2, h3, h4, h5, h6]

/-- Witness for C6: the string "bogus" produces each family's typed error. -/
theorem from_str_unknown_token_typed_error_witness :
    JobState.from_str "bogus" = .error (.BadJobState "bogus")
    ∧ JobGroupState.from_str "bogus" = .error (.BadJobGroupState "bogus")
    ∧ JobGroupProjectState.from_str "bogus" = .error (.BadJobGroupProjectState "bogus") :=
  ⟨from_str_unknown_token_typed_error.1 "bogus" (by decide),
   from_str_unknown_token_typed_error.2.1 "bogus" (by decide),
   from_str_unknown_token_typed_error.2.2 "bogus" (by decide)⟩

/-- C7: each numeric `Serialize` match is total (returns a token) on the
enum's valid numeric range, is reached only with valid values when applied
to an actual enum value, and hits the panic arm (modelled `none`) on every
out-of-range numeric value. -/
theorem serialize_total_and_panics :
    (∀ n : Nat, n ≤ 8 → (serializeJobStateNum n).isSome)
    ∧ (∀ n : Nat, 8 < n → serializeJobStateNum n = none)
    ∧ (∀ n : Nat, n ≤ 5 → (serializeJobGroupStateNum n).isSome)
    ∧ (∀ n : Nat, 5 < n → serializeJobGroupStateNum n = none)
    ∧ (∀ n : Nat, n ≤ 5 → (serializeJobGroupProjectStateNum n).isSome)
    ∧ (∀ n : Nat, 5 < n → serializeJobGroupProjectStateNum n = none)
    ∧ (∀ s : JobState, (s.serializeStr).isSome)
    ∧ (∀ g : JobGroupState, (g.serializeStr).isSome)
    ∧ (∀ p : JobGroupProjectState, (p.serializeStr).isSome) := by
  refine ⟨?_, ?_, ?_, ?_, ?_, ?_, ?_, ?_, ?_⟩
  · intro n h; interval_cases n <;> rfl
  · intro n h
    obtain ⟨m, rfl⟩ : ∃ m, n = m + 9 := ⟨n - 9, by omega⟩
    rfl
  · intro n h; interval_cases n <;> rfl
  · intro n h
    obtain ⟨m, rfl⟩ : ∃ m, n = m + 6 := ⟨n - 6, by omega⟩
    rfl
  · intro n h; interval_cases n <;> rfl
  · intro n h
    obtain ⟨m, rfl⟩ : ∃ m, n = m + 6 := ⟨n - 6, by omega⟩
    exact rfl
  · intro s; cases s <;> rfl
  · intro g; cases g <;> rfl
  · intro p; cases p <;> rfl

/-- Witness for C7 at the range boundaries of each numeric match. -/
theorem serialize_total_and_panics_witness :
    (serializeJobStateNum 8).isSome ∧ serializeJobStateNum 9 = none
    ∧ (serializeJobGroupStateNum 5).isSome ∧ serializeJobGroupStateNum 6 = none
    ∧ (serializeJobGroupProjectStateNum 5).isSome
    ∧ serializeJobGroupProjectStateNum 6 = none :=
  ⟨serialize_total_and_panics.1 8 (by decide),
   serialize_total_and_panics.2.1 9 (by decide),
   serialize_total_and_panics.2.2.1 5 (by decide),
   serialize_total_and_panics.2.2.2.1 6 (by decide),
   serialize_total_and_panics.2.2.2.2.1 5 (by decide),
   serialize_total_and_panics.2.2.2.2.2.1 6 (by decide)⟩

/-- C8: for every valid value of each state enum, the `Display` token and
the `Serialize` (API projection) token are identical; in particular the
variant-matched `Display` table and the numeric-matched `Serialize` table
for `JobGroupState` agree on every value. -/
theorem display_agrees_with_serialize :
    (∀ s : JobState, s.serializeStr = some s.display)
    ∧ (∀ g : JobGroupState, g.serializeStr = some g.display)
    ∧ (∀ p : JobGroupProjectState, p.serializeStr = some p.display) := by
  refine ⟨?_, ?_, ?_⟩
  · intro s; cases s <;> rfl
  · intro g; cases g <;> rfl
  · intro p; cases p <;> rfl

/-- Shared helper: serializing a valid `JobState` value yields exactly its
`Display` token. -/
theorem jobState_serializeStr_eq (s : JobState) : s.serializeStr = some s.display := by
  cases s <;> rfl

/-- Shared helper: serializing a valid `JobGroupState` value yields exactly
its `Display` token. -/
theorem jobGroupState_serializeStr_eq (g : JobGroupState) :
    g.serializeStr = some g.display := by
  cases g <;> rfl

/-- Shared helper: serializing a valid `JobGroupProjectState` value yields
exactly its `Display` token. -/
theorem jobGroupProjectState_serializeStr_eq (p : JobGroupProjectState) :
    p.serializeStr = some p.display := by
  cases p <;> rfl

/-- C2: the routing-key table: a `JobGet` routes by its job id wrapped in
the opaque shard id type (id 42 gives `InstaId 42`), a `ProjectJobsGet` by
its project name string, and a `JobGroupSpec` by the `origin/package`
composite (origin `core`, package `hab` give `"core/hab"`). -/
theorem route_key_table :
    (∀ m : JobGet, m.route_key = some ⟨m.id⟩)
    ∧ (∀ m : ProjectJobsGet, m.route_key = some m.name)
    ∧ (∀ m : JobGroupSpec, m.route_key = some (m.origin ++ "/" ++ m.package))
    ∧ JobGet.route_key ⟨42⟩ = some ⟨42⟩
    ∧ ProjectJobsGet.route_key ⟨"core/hab", 0, 0⟩ = some "core/hab"
    ∧ JobGroupSpec.route_key ⟨"core", "hab"⟩ = some "core/hab" :=
  ⟨fun _ => rfl, fun _ => rfl, fun _ => rfl, rfl, rfl, by decide⟩

/-- C10: every message type given a `Routable` implementation in this
module returns `some` routing key on every value; the `None` outcome is
never produced here. -/
theorem route_key_never_none :
    (∀ m : JobSpec, (m.route_key).isSome)
    ∧ (∀ m : JobLogGet, (m.route_key).isSome)
    ∧ (∀ m : JobGet, (m.route_key).isSome)
    ∧ (∀ m : Job, (m.route_key).isSome)
    ∧ (∀ m : ProjectJobsGet, (m.route_key).isSome)
    ∧ (∀ m : JobGroupSpec, (m.route_key).isSome)
    ∧ (∀ m : JobGroupGet, (m.route_key).isSome)
    ∧ (∀ m : JobGroupAbort, (m.route_key).isSome)
    ∧ (∀ m : JobGroupCancel, (m.route_key).isSome)
    ∧ (∀ m : JobGraphPackageCreate, (m.route_key).isSome)
    ∧ (∀ m : JobGraphPackagePreCreate, (m.route_key).isSome)
    ∧ (∀ m : JobGroupOriginGet, (m.route_key).isSome)
    ∧ (∀ m : JobGraphPackageStatsGet, (m.route_key).isSome)
    ∧ (∀ m : JobGraphPackageReverseDependenciesGet, (m.route_key).isSome) :=
  ⟨fun _ => rfl, fun _ => rfl, fun _ => rfl, fun _ => rfl, fun _ => rfl,
   fun _ => rfl, fun _ => rfl, fun _ => rfl, fun _ => rfl, fun _ => rfl,
   fun _ => rfl, fun _ => rfl, fun _ => rfl, fun _ => rfl⟩

/-- C9: the `JobSpec -> Job` conversion copies the owner id and project,
sets the state to the default `Pending`, copies the channel exactly when
the spec has one set, and never sets a package identifier. -/
theorem jobspec_into_job :
    ∀ s : JobSpec,
      (s.intoJob).owner_id = s.owner_id
      ∧ (s.intoJob).project = s.project
      ∧ (s.intoJob).state = JobState.Pending
      ∧ (s.intoJob).channel = s.channel
      ∧ (s.intoJob).package_ident = none := by
  intro s
  cases hc : s.channel <;>
    simp [JobSpec.intoJob, Job.new, JobState.defaultState, hc]

/-- C5: converting an `OriginPackage` to a `JobGraphPackage` and that to a
`JobGraphPackageCreate` yields ident, target and deps strings identical to
rendering the source's typed ident, target and deps directly through the
canonical identifier formatter: the second hop introduces no drift. -/
theorem graph_package_two_hop_no_drift :
    ∀ p : OriginPackage,
      ((p.toJobGraphPackage).toCreate).ident = p.ident.fmt
      ∧ ((p.toJobGraphPackage).toCreate).target = p.target
      ∧ ((p.toJobGraphPackage).toCreate).deps = p.deps.map OriginPackageIdent.fmt := by
  intro p
  refine ⟨rfl, rfl, ?_⟩
  simp [JobGraphPackage.toCreate, OriginPackage.toJobGraphPackage]

set_option maxHeartbeats 4000000 in
/-- C3: the `Job` projection always succeeds for a valid state, renders the
64-bit id as its decimal string (a string value, never numeric), emits
`version`/`release` exactly when a package identifier is set (with that
identifier's fields), emits `error` exactly when set (with its value), and
always takes `origin`/`name` from the project reference. -/
theorem job_projection_fields :
    ∀ j : Job, ∃ fs, j.serializeFields = some fs
      ∧ fs.lookup "id" = some (SValue.str (Nat.repr j.id))
      ∧ fs.lookup "version" = j.package_ident.map (fun i => SValue.str i.version)
      ∧ fs.lookup "release" = j.package_ident.map (fun i => SValue.str i.release)
      ∧ fs.lookup "error" = j.error.map SValue.str
      ∧ fs.lookup "origin" = some (SValue.str j.project.origin_name)
      ∧ fs.lookup "name" = some (SValue.str j.project.package_name)
      ∧ (fs.map Prod.fst).contains "version" = j.package_ident.isSome
      ∧ (fs.map Prod.fst).contains "error" = j.error.isSome := by
  rintro ⟨id, oid, st, proj, ch, pi, bs, bf, er, ca⟩
  cases st <;> cases pi <;> cases er <;> cases bs <;> cases bf <;> cases ch <;>
    exact ⟨_, rfl, rfl, rfl, rfl, rfl, rfl, rfl, rfl, rfl⟩



/-- Fuel irrelevance of the stripping pass: any sufficient fuel computes
the same result. -/
theorem stripFuel_congr : ∀ (f1 f2 : Nat) (cs : List Char),
    cs.length ≤ f1 → cs.length ≤ f2 → stripFuel f1 cs = stripFuel f2 cs := by
  intro f1
  induction f1 with
  | zero =>
    intro f2 cs h1 _
    have hcs : cs = [] := List.eq_nil_of_length_eq_zero (Nat.le_zero.mp h1)
    subst hcs
    cases f2 <;> rfl
  | succ f1 ih =>
    intro f2 cs h1 h2
    cases cs with
    | nil => cases f2 <;> rfl
    | cons c rest =>
      cases f2 with
      | zero => simp at h2
      | succ f2 =>
        have hr1 : rest.length ≤ f1 := by
          simp only [List.length_cons] at h1; omega
        have hr2 : rest.length ≤ f2 := by
          simp only [List.length_cons] at h2; omega
        simp only [stripFuel]
        cases hc : isIntroducer c with
        | true =>
          simp only [if_true]
          cases hm : matchTail rest with
          | some k =>
            have hd1 : (rest.drop k).length ≤ f1 := by
              simp only [List.length_drop]; omega
            have hd2 : (rest.drop k).length ≤ f2 := by
              simp only [List.length_drop]; omega
            exact ih f2 (rest.drop k) hd1 hd2
          | none => rw [ih f2 rest hr1 hr2]
        | false =>
          simp only [Bool.false_eq_true, if_false]
          rw [ih f2 rest hr1 hr2]

/-- Lines in which no position starts a control-sequence match are left
unchanged by the stripping pass, whatever the fuel. -/
theorem stripFuel_noMatch : ∀ (fuel : Nat) (cs : List Char),
    noMatchLine cs = true → stripFuel fuel cs = cs := by
  intro fuel
  induction fuel with
  | zero => intro cs _; rfl
  | succ fuel ih =>
    intro cs h
    cases cs with
    | nil => rfl
    | cons c rest =>
      simp only [stripFuel]
      cases hc : isIntroducer c with
      | true =>
        cases hm : matchTail rest with
        | some k => simp [noMatchLine, hc, hm] at h
        | none =>
          simp only [noMatchLine, hc, hm] at h
          simp only [if_true, hm]
          simp only [Option.isSome_none, Bool.and_false, Bool.not_false,
            Bool.true_and] at h
          rw [ih rest h]
      | false =>
        simp only [noMatchLine, hc, Bool.false_and, Bool.not_false,
          Bool.true_and] at h
        simp only [Bool.false_eq_true, if_false]
        rw [ih rest h]

/-- Shifting a match-start query past the head of the line. -/
theorem hasMatchAt_cons (x : Char) (l : List Char) (i : Nat) :
    hasMatchAt (x :: l) (i + 1) = hasMatchAt l i := rfl

/-- The leftmost control-sequence match is deleted wholesale: if nothing
before `pre.length` starts a match and a full match of length `r.length + 1`
starts right after `pre`, the stripping pass keeps `pre`, deletes the
match, and continues after it. -/
theorem stripFuel_removes :
    ∀ (pre : List Char) (fuel : Nat) (c : Char) (r post : List Char),
      (pre ++ (c :: (r ++ post))).length ≤ fuel →
      (∀ i, i < pre.length → hasMatchAt (pre ++ (c :: (r ++ post))) i = false) →
      isIntroducer c = true → matchTail (r ++ post) = some r.length →
      stripFuel fuel (pre ++ (c :: (r ++ post))) = pre ++ stripLine post := by
  intro pre
  induction pre with
  | nil =>
    intro fuel c r post hf _ hc hm
    cases fuel with
    | zero => simp at hf
    | succ fuel =>
      simp only [List.nil_append]
      simp only [stripFuel, hc, if_true, hm]
      rw [List.drop_left r post]
      exact stripFuel_congr fuel post.length post
        (by simp only [List.nil_append, List.length_cons, List.length_append] at hf; omega)
        le_rfl
  | cons p pre ih =>
    intro fuel c r post hf hpre hc hm
    cases fuel with
    | zero => simp at hf
    | succ fuel =>
      have h0 : (isIntroducer p
          && (matchTail (pre ++ (c :: (r ++ post)))).isSome) = false :=
        hpre 0 (by simp)
      have hlen : (pre ++ (c :: (r ++ post))).length ≤ fuel := by
        simp only [List.cons_append, List.length_cons] at hf
        simp only [List.length_append, List.length_cons]
        simp only [List.length_append, List.length_cons] at hf
        omega
      have hpre2 : ∀ i, i < pre.length →
          hasMatchAt (pre ++ (c :: (r ++ post))) i = false := by
        intro i hi
        have := hpre (i + 1) (by simp only [List.length_cons]; omega)
        rw [List.cons_append] at this
        rw [hasMatchAt_cons] at this
        exact this
      rw [List.cons_append]
      simp only [stripFuel]
      cases hp : isIntroducer p with
      | true =>
        cases hmt : matchTail (pre ++ (c :: (r ++ post))) with
        | some k => rw [hp, hmt] at h0; simp at h0
        | none =>
          simp only [if_true, hmt]
          rw [ih fuel c r post hlen hpre2 hc hm]
          simp
      | false =>
        simp only [Bool.false_eq_true, if_false]
        rw [ih fuel c r post hlen hpre2 hc hm]
        simp

/-- C4: `strip_ansi` is total and maps each content line through one
`replace_all` pass of the control-sequence regex, preserving line count
and order; a line in which no position starts a control-sequence match is
returned unchanged; the leftmost match-shaped substring is deleted
wholesale (and scanning continues after it); the spec's example line loses
both of its escape sequences; and an empty content sequence stays empty. -/
theorem strip_ansi_sanitizes :
    (∀ log : JobLog, (log.strip_ansi).content = log.content.map stripLineS)
    ∧ (∀ log : JobLog, (log.strip_ansi).content.length = log.content.length)
    ∧ (∀ cs : List Char, noMatchLine cs = true → stripLine cs = cs)
    ∧ (∀ (pre : List Char) (c : Char) (r post : List Char),
        (∀ i, i < pre.length → hasMatchAt (pre ++ (c :: (r ++ post))) i = false) →
        isIntroducer c = true → matchTail (r ++ post) = some r.length →
        stripLine (pre ++ (c :: (r ++ post))) = pre ++ stripLine post)
    ∧ stripLineS "\x1b[1;33m» Importing origin key\x1b[0m" = "» Importing origin key"
    ∧ (∀ log : JobLog, log.content = [] → (log.strip_ansi).content = []) := by
  refine ⟨fun _ => rfl, fun log => by simp [JobLog.strip_ansi], ?_, ?_, by decide, ?_⟩
  · intro cs h
    exact stripFuel_noMatch cs.length cs h
  · intro pre c r post hpre hc hm
    exact stripFuel_removes pre (pre ++ (c :: (r ++ post))).length c r post
      le_rfl hpre hc hm
  · intro log h
    simp [JobLog.strip_ansi, h]

/-- Witness for C4 at concrete inputs: a plain line is unchanged, the
leftmost-match deletion fires on a concrete line with a real escape
sequence, and an empty log stays empty. -/
theorem strip_ansi_sanitizes_witness :
    stripLine "plain text".data = "plain text".data
    ∧ stripLine ("ab".data ++ ('\x1b' :: ("[0m".data ++ "cd".data)))
        = "ab".data ++ stripLine "cd".data
    ∧ (JobLog.strip_ansi ⟨0, 0, [], false⟩).content = [] :=
  ⟨strip_ansi_sanitizes.2.2.1 "plain text".data (by decide),
   strip_ansi_sanitizes.2.2.2.1 "ab".data '\x1b' "[0m".data "cd".data
     (by decide) (by decide) (by decide),
   strip_ansi_sanitizes.2.2.2.2.2 ⟨0, 0, [], false⟩ rfl⟩

end Jobsrv
